import Mathlib

/-!
Shallow embedding of the ajt-validator library (TypeScript) in Lean 4.

Each embedded validator is translated from its source file:
* `EmailValidator`   — src/validators/contact/email.validator.ts
* `PhoneValidator`   — src/validators/contact/phone.validator.ts
* `AgeValidator`     — src/validators/personal/age.validator.ts
* `BankAccountValidator` — src/validators/financial/bank-account.validator.ts
* `CreditCardValidator`  — src/validators/financial/credit-card.validator.ts
* `URLValidator`     — src/validators/url (boolean API with a mutable
  `lastError` field, modelled by explicit state passing)

Conventions of the embedding:
* A validator instance is represented by its merged options record (the
  TypeScript constructors shallow-merge the caller's partial options over
  the documented defaults; the `...Defaults` definitions below are those
  defaults).  JavaScript `RegExp` option fields are modelled as `String →
  Bool` predicates; the built-in default regexes are translated to
  executable predicates over `List Char`.
* JavaScript strings are Lean `String`s; the handful of string methods the
  library uses (`trim`, `split`, `toLowerCase`, `endsWith`, …) are embedded
  as structurally recursive functions over `List Char` so that every
  validator evaluates by kernel reduction.  ASCII behaviour is identical to
  JavaScript's; the library's patterns only accept ASCII data.
* JavaScript `Date` values are modelled by their civil components
  (`JSDate`); comparison of two dates is timestamp comparison, which is
  lexicographic in the components.  Validators that read the current clock
  (`new Date()`) take the current instant as an explicit `now` parameter.
* JavaScript numbers are modelled as exact rationals plus an explicit NaN
  (`JSNum`); `null`/`undefined` inputs and optional object fields are
  `Option`s, and JS truthiness of an optional string (`undefined`, `null`
  and `""` are falsy) is `optTruthy`.
* The one `throw` reachable from a `validate` method (the age validator's
  date-math helper) is modelled with `Except`.
-/

/-! ### JavaScript string primitives -/

/-- Whitespace class of JavaScript regexes' `\s` and `String.prototype.trim`
(ASCII part: space, tab, LF, VT, FF, CR). -/
def isJsWhitespace (c : Char) : Bool :=
  c = ' ' || c = '\t' || c = '\n' || c = Char.ofNat 11 || c = Char.ofNat 12 || c = '\r'

/-- `String.prototype.split(sep)` for a single-character separator, over the
character list.  Always returns at least one (possibly empty) part. -/
def splitOnChar (sep : Char) : List Char → List (List Char)
  | [] => [[]]
  | c :: cs =>
    let r := splitOnChar sep cs
    if c = sep then [] :: r
    else
      match r with
      | [] => [[c]]
      | h :: t => (c :: h) :: t

/-- `String.prototype.trim` on the character list: strip leading and
trailing whitespace. -/
def jsTrimList (l : List Char) : List Char :=
  ((l.dropWhile isJsWhitespace).reverse.dropWhile isJsWhitespace).reverse

/-- `String.prototype.trim`. -/
def jsTrim (s : String) : String := String.mk (jsTrimList s.data)

/-- `String.prototype.toLowerCase` (ASCII). -/
def jsToLower (s : String) : String := String.mk (s.data.map Char.toLower)

/-- `String.prototype.endsWith t` on character lists. -/
def endsWithList (t l : List Char) : Bool :=
  if t.length ≤ l.length then l.drop (l.length - t.length) == t else false

/-- `String.prototype.startsWith t` on character lists. -/
def startsWithList (t l : List Char) : Bool := l.take t.length == t

/-- Numeric value of a decimal digit character. -/
def charDigitVal (c : Char) : ℕ := c.toNat - 48

/-- Value of a list of decimal digit characters, most significant first. -/
def digitsToNat (l : List Char) : ℕ := l.foldl (fun n c => n * 10 + charDigitVal c) 0

/-- JavaScript `parseInt(s, 10)` restricted to non-negative results: parse
the leading run of decimal digits, `none` (NaN) if there is none. -/
def jsParseIntNat (s : String) : Option ℕ :=
  let ds := s.data.takeWhile Char.isDigit
  if ds = [] then none else some (digitsToNat ds)

/-- All decompositions `cs = l ++ '@' :: r`, used to give boolean matching
semantics to anchored regexes of shape `^L@D$`. -/
def atSplits : List Char → List (List Char × List Char)
  | [] => []
  | c :: cs =>
    (if c = '@' then [(([] : List Char), cs)] else [])
      ++ (atSplits cs).map (fun p => (c :: p.1, p.2))

/-- JS truthiness of an optional string: `undefined`/`null` and `""` are
falsy. -/
def optTruthy : Option String → Bool
  | none => false
  | some s => !(s = "")

/-! ### Result protocol (src/interfaces/result.interface.ts) -/

/-- `ValidationError` of the result interface. -/
structure ValidationError where
  code : String
  message : String
  deriving Repr, DecidableEq

/-- `ValidationResult<T>` of the result interface: `value` and `errors` are
optional fields. -/
structure ValidationResult (T : Type) where
  isValid : Bool
  value : Option T := none
  errors : Option (List ValidationError) := none
  deriving Repr

/-- `BaseValidator.createError` (src/validators/base/base.validator.ts). -/
def createError {T : Type} (code message : String) : ValidationResult T :=
  { isValid := false, errors := some [{ code := code, message := message }] }

/-- `BaseValidator.createSuccess` (src/validators/base/base.validator.ts). -/
def createSuccess {T : Type} (value : T) : ValidationResult T :=
  { isValid := true, value := some value }

/-- Code of the first error of a result (`errors[0].code`), if any. -/
def getErrCode {T : Type} (r : ValidationResult T) : Option String :=
  r.errors.bind (fun l => l.head?.map ValidationError.code)

/-- The result-shape invariant of the spec: `isValid = true` iff the value
is present and `errors` absent; `isValid = false` iff the value is absent
and `errors` holds exactly one entry. -/
def ResultInvariant (isValid : Bool) (hasValue : Bool)
    (errors : Option (List ValidationError)) : Prop :=
  (isValid = true ↔ hasValue = true ∧ errors = none) ∧
  (isValid = false ↔ hasValue = false ∧ ∃ e, errors = some [e])

/-! ### Email validator (src/validators/contact/email.validator.ts) -/

/-- `EmailValidatorOptions` after the constructor's shallow merge over the
defaults. -/
structure EmailValidatorOptions where
  allowedDomains : List String
  blockedDomains : List String
  maxLength : ℕ
  strictMode : Bool
  deriving Repr

/-- Constructor defaults of `EmailValidator`. -/
def emailDefaults : EmailValidatorOptions :=
  { allowedDomains := [], blockedDomains := [], maxLength := 254, strictMode := false }

/-- Character class `[a-zA-Z0-9._%+-]` of the simple email pattern. -/
def simpleLocalChar (c : Char) : Bool :=
  c.isAlpha || c.isDigit || c = '.' || c = '_' || c = '%' || c = '+' || c = '-'

/-- Character class `[a-zA-Z0-9.-]` of the simple email pattern's domain. -/
def simpleDomainChar (c : Char) : Bool := c.isAlpha || c.isDigit || c = '.' || c = '-'

/-- Matching of the simple pattern's domain part
`[a-zA-Z0-9.-]+\.[a-zA-Z]{2,}$`: some dot splits the part into a non-empty
class-1 prefix and an alphabetic TLD of length ≥ 2 (necessarily at the last
dot, since the TLD may not contain dots). -/
def simpleDomainOk (d : List Char) : Bool :=
  let parts := splitOnChar '.' d
  match parts.getLast? with
  | none => false
  | some tld =>
      decide (2 ≤ parts.length) && decide (2 ≤ tld.length) && tld.all Char.isAlpha &&
      decide (tld.length + 2 ≤ d.length) && (d.take (d.length - (tld.length + 1))).all simpleDomainChar

/-- `simpleEmailPattern = /^[a-zA-Z0-9._%+-]+@[a-zA-Z0-9.-]+\.[a-zA-Z]{2,}$/`. -/
def simpleEmailTest (cs : List Char) : Bool :=
  (atSplits cs).any (fun p => !(p.1 = []) && p.1.all simpleLocalChar && simpleDomainOk p.2)

/-- Character class `[^<>()\[\]\\.,;:\s@"]` of the strict email pattern. -/
def strictAtomChar (c : Char) : Bool :=
  !(c = '<' || c = '>' || c = '(' || c = ')' || c = '[' || c = ']' || c = '\\' ||
    c = '.' || c = ',' || c = ';' || c = ':' || isJsWhitespace c || c = '@' || c = '"')

/-- Strict pattern, unquoted local part: `atom(\.atom)*` with non-empty
atoms over `strictAtomChar`. -/
def strictLocalOk (l : List Char) : Bool :=
  (splitOnChar '.' l).all (fun p => !(p = []) && p.all strictAtomChar)

/-- Strict pattern, quoted local part `".+"` (`.` matches anything except a
line terminator). -/
def quotedLocalOk (l : List Char) : Bool :=
  decide (3 ≤ l.length) && l.take 1 == ['"'] && endsWithList ['"'] l &&
  ((l.drop 1).take (l.length - 2)).all (fun c => !(c = '\n' || c = '\r'))

/-- Strict pattern, bracketed IPv4 domain
`\[[0-9]{1,3}\.[0-9]{1,3}\.[0-9]{1,3}\.[0-9]{1,3}]`. -/
def strictIpDomainOk (d : List Char) : Bool :=
  startsWithList ['['] d && endsWithList [']'] d &&
  (let inner := (d.drop 1).take (d.length - 2)
   let parts := splitOnChar '.' inner
   decide (parts.length = 4) &&
     parts.all (fun p => decide (1 ≤ p.length) && decide (p.length ≤ 3) && p.all Char.isDigit))

/-- Strict pattern, host-name domain `([a-zA-Z\-0-9]+\.)+[a-zA-Z]{2,}`. -/
def strictHostDomainOk (d : List Char) : Bool :=
  let parts := splitOnChar '.' d
  match parts.getLast? with
  | none => false
  | some tld =>
      decide (2 ≤ parts.length) && decide (2 ≤ tld.length) && tld.all Char.isAlpha &&
      parts.dropLast.all (fun p => !(p = []) && p.all (fun c => c.isAlpha || c.isDigit || c = '-'))

/-- `strictEmailPattern`: the full strict regex
`^((atom(\.atom)*)|(".+"))@((\[ipv4\])|(label(\.label)*\.tld))$`. -/
def strictEmailTest (cs : List Char) : Bool :=
  (atSplits cs).any (fun p =>
    (strictLocalOk p.1 || quotedLocalOk p.1) && (strictIpDomainOk p.2 || strictHostDomainOk p.2))

/-- The `domain` local of `EmailValidator.validate`:
`email.split('@')[1].toLowerCase()`. -/
def emailDomainOf (email : String) : String :=
  String.mk (((splitOnChar '@' email.data).getD 1 []).map Char.toLower)

/-- `EmailValidator.validate`. -/
def emailValidate (opts : EmailValidatorOptions) (email : String) : ValidationResult String :=
  if email = "" then createError "EMAIL_REQUIRED" "Email address is required"
  else if opts.maxLength < email.data.length then
    createError "EMAIL_TOO_LONG" s!"Email must not exceed {opts.maxLength} characters"
  else if !(if opts.strictMode then strictEmailTest email.data else simpleEmailTest email.data) then
    createError "INVALID_EMAIL_FORMAT" "Email format is invalid"
  else if !(opts.allowedDomains = []) &&
      !(opts.allowedDomains.any (fun a =>
        emailDomainOf email = jsToLower a ||
        endsWithList ("." ++ jsToLower a).data (emailDomainOf email).data)) then
    createError "DOMAIN_NOT_ALLOWED" "Email domain is not in the list of allowed domains"
  else if !(opts.blockedDomains = []) &&
      opts.blockedDomains.any (fun b =>
        emailDomainOf email = jsToLower b ||
        endsWithList ("." ++ jsToLower b).data (emailDomainOf email).data) then
    createError "DOMAIN_BLOCKED" "Email domain is blocked"
  else createSuccess (jsToLower (jsTrim email))

/-! ### Phone validator (src/validators/contact/phone.validator.ts) -/

/-- `PhoneValidatorOptions` after the constructor's shallow merge. -/
structure PhoneValidatorOptions where
  allowedCountryCodes : List String
  requireCountryCode : Bool
  minLength : ℕ
  maxLength : ℕ
  allowExtension : Bool
  deriving Repr

/-- Constructor defaults of `PhoneValidator`. -/
def phoneDefaults : PhoneValidatorOptions :=
  { allowedCountryCodes := [], requireCountryCode := false,
    minLength := 7, maxLength := 15, allowExtension := true }

/-- Character class `[0-9\s-()]` of `basicPhonePattern`. -/
def phoneBodyChar (c : Char) : Bool :=
  c.isDigit || isJsWhitespace c || c = '-' || c = '(' || c = ')'

/-- `basicPhonePattern = /^[+]?[0-9\s-()]+$/`. -/
def basicPhoneTest (cs : List Char) : Bool :=
  match cs with
  | [] => false
  | c :: rest =>
    if c = '+' then !(rest = []) && rest.all phoneBodyChar
    else (c :: rest).all phoneBodyChar

/-- The capture of `phone.match(/^\+([0-9]{1,3})/)`: greedily up to three
digits after the leading `'+'` (empty when the match fails). -/
def phoneCountryCodeDigits (phone : String) : List Char :=
  ((phone.data.drop 1).takeWhile Char.isDigit).take 3

/-- `PhoneValidator.validate`.  The `digitsOnly` local
(`phone.replace(/\D/g, '')`) is written out as `phone.data.filter
Char.isDigit`. -/
def phoneValidate (opts : PhoneValidatorOptions) (phone : String) : ValidationResult String :=
  if phone = "" then createError "PHONE_REQUIRED" "Phone number is required"
  else if !basicPhoneTest phone.data then
    createError "INVALID_PHONE_FORMAT" "Phone number format is invalid"
  else if opts.requireCountryCode && !startsWithList ['+'] phone.data then
    createError "COUNTRY_CODE_REQUIRED" "Phone number must include a country code (e.g., +1)"
  else if startsWithList ['+'] phone.data && !(opts.allowedCountryCodes = []) &&
      !(phoneCountryCodeDigits phone = []) &&
      !(opts.allowedCountryCodes.contains (String.mk (phoneCountryCodeDigits phone))) then
    createError "COUNTRY_CODE_NOT_ALLOWED"
      "Phone number country code is not in the list of allowed country codes"
  else if (phone.data.filter Char.isDigit).length < opts.minLength then
    createError "PHONE_TOO_SHORT" s!"Phone number must have at least {opts.minLength} digits"
  else if opts.maxLength < (phone.data.filter Char.isDigit).length then
    -- const parts = phone.split(/[xX]/); parts.length > 1
    if phone.data.any (fun c => c = 'x' || c = 'X') && opts.allowExtension then
      if opts.maxLength <
          ((phone.data.takeWhile (fun c => !(c = 'x' || c = 'X'))).filter Char.isDigit).length then
        createError "PHONE_TOO_LONG"
          s!"Phone number must not exceed {opts.maxLength} digits (excluding extension)"
      else createSuccess (jsTrim phone)
    else
      createError "PHONE_TOO_LONG" s!"Phone number must not exceed {opts.maxLength} digits"
  else createSuccess (jsTrim phone)

/-! ### JavaScript dates

A `Date` is modelled by its civil components; the numeric comparison of two
`Date`s (their epoch timestamps) is lexicographic comparison of the
components. -/

/-- Civil components of a JavaScript `Date`: year, 0-based month, 1-based
day of month, and milliseconds within the day. -/
structure JSDate where
  year : ℤ
  month : ℕ
  day : ℕ
  ms : ℕ
  deriving Repr, DecidableEq

/-- Timestamp comparison `a < b` of two dates. -/
def jsDateLtB (a b : JSDate) : Bool :=
  a.year < b.year || (a.year = b.year &&
    (a.month < b.month || (a.month = b.month &&
      (a.day < b.day || (a.day = b.day && a.ms < b.ms)))))

/-- Timestamp comparison `a <= b` of two dates. -/
def jsDateLeB (a b : JSDate) : Bool := !jsDateLtB b a

/-- Gregorian leap-year rule (as implemented by JavaScript `Date`). -/
def isLeapYear (y : ℤ) : Bool := (y % 4 = 0 && !(y % 100 = 0)) || y % 400 = 0

/-- Number of days of the 1-indexed month `m` of year `y`. -/
def daysInMonth (y : ℤ) (m : ℕ) : ℕ :=
  if m = 2 then (if isLeapYear y then 29 else 28)
  else if m = 4 || m = 6 || m = 9 || m = 11 then 30
  else 31

/-- `new Date(y, m, 0).getDate()` for a 0-based month `m`: the number of
days of the month preceding month index `m` of year `y`. -/
def prevMonthDays (y : ℤ) (m : ℕ) : ℕ :=
  if m = 0 then daysInMonth (y - 1) 12 else daysInMonth y m

/-- A JavaScript number: an exact rational or NaN. -/
inductive JSNum where
  | nan : JSNum
  | val : ℚ → JSNum
  deriving Repr, DecidableEq

/-- JavaScript `Math.round`: round to the nearest integer, halves toward
positive infinity. -/
def jsRound (q : ℚ) : ℚ := (⌊q + 1/2⌋ : ℤ)

/-! ### Age validator (src/validators/personal/age.validator.ts) -/

/-- One entry of `AgeValidatorOptions.ageRanges`. -/
structure AgeRange where
  name : String
  min : ℚ
  max : ℚ
  deriving Repr

/-- `AgeValidatorOptions` after the constructor's shallow merge. -/
structure AgeValidatorOptions where
  minAge : ℚ
  maxAge : ℚ
  allowDecimals : Bool
  ageRanges : List AgeRange
  validateFromDate : Bool
  deriving Repr

/-- Constructor defaults of `AgeValidator`. -/
def ageDefaults : AgeValidatorOptions :=
  { minAge := 0, maxAge := 120, allowDecimals := false, ageRanges := [], validateFromDate := false }

/-- The `years`/`months`/`days` breakdown of `AgeValidationResult.detailed`. -/
structure DetailedAge where
  years : ℤ
  months : ℤ
  days : ℤ
  deriving Repr, DecidableEq

/-- `AgeValidationResult`: `ValidationResult<number>` extended with the age
metadata fields. -/
structure AgeValidationResult where
  isValid : Bool
  value : Option ℚ := none
  errors : Option (List ValidationError) := none
  ageCategory : Option String := none
  calculatedAge : Option ℚ := none
  detailed : Option DetailedAge := none
  deriving Repr

/-- `AgeValidator.createError` (the override in age.validator.ts). -/
def ageCreateError (code message : String) : AgeValidationResult :=
  { isValid := false, errors := some [{ code := code, message := message }] }

/-- Code of the first error of an age result. -/
def ageErrCode (r : AgeValidationResult) : Option String :=
  r.errors.bind (fun l => l.head?.map ValidationError.code)

/-- The `number | Date` input of `AgeValidator.validate` (the enclosing
`Option` is `null`/`undefined`). -/
inductive AgeInput where
  | num : JSNum → AgeInput
  | date : JSDate → AgeInput
  deriving Repr

/-- `AgeValidator.calculateAgeFromDate`, after its future-date guard: the
calculated age and the detailed breakdown.  (The guard itself — `if
(birthDate > today) throw` — lives in `ageValidate`.) -/
def calculateAgeFromDate (opts : AgeValidatorOptions) (birthDate today : JSDate) :
    ℚ × DetailedAge :=
  let years0 : ℤ := today.year - birthDate.year
  let months0 : ℤ := (today.month : ℤ) - (birthDate.month : ℤ)
  let days0 : ℤ := (today.day : ℤ) - (birthDate.day : ℤ)
  -- Adjust for negative days (borrowed from the previous month)
  let months1 := if days0 < 0 then months0 - 1 else months0
  let days1 := if days0 < 0 then days0 + (prevMonthDays today.year today.month : ℤ) else days0
  -- Adjust for negative months (borrowed from the previous year)
  let years2 := if months1 < 0 then years0 - 1 else years0
  let months2 := if months1 < 0 then months1 + 12 else months1
  let calculatedAge : ℚ :=
    if opts.allowDecimals then
      jsRound (((years2 : ℚ) + (months2 : ℚ) / 12 + (days1 : ℚ) / 365.25) * 100) / 100
    else (years2 : ℚ)
  (calculatedAge, { years := years2, months := months2, days := days1 })

/-- The checks of `AgeValidator.validate` after the `age` variable has been
obtained: NaN check, decimals check, min/max bounds, age-category lookup,
and the success result (`calcAge`/`det` are the date-derived metadata,
absent for direct numeric input). -/
def ageFinish (opts : AgeValidatorOptions) (age : JSNum) (calcAge : Option ℚ)
    (det : Option DetailedAge) : AgeValidationResult :=
  match age with
  | .nan => ageCreateError "INVALID_AGE" "Age must be a valid number"
  | .val a =>
    if !opts.allowDecimals && !(a.den = 1) then
      ageCreateError "DECIMALS_NOT_ALLOWED" "Age must be a whole number"
    else if a < opts.minAge then
      ageCreateError "AGE_BELOW_MINIMUM" s!"Age must be at least {opts.minAge} years"
    else if opts.maxAge < a then
      ageCreateError "AGE_ABOVE_MAXIMUM" s!"Age must not exceed {opts.maxAge} years"
    else
      { isValid := true, value := some a,
        ageCategory := (opts.ageRanges.find? (fun r => r.min ≤ a && a ≤ r.max)).map AgeRange.name,
        calculatedAge := calcAge, detailed := det }

/-- `AgeValidator.validate`.  `now` is the `new Date()` read by
`calculateAgeFromDate`; the `throw new Error('Birth date cannot be in the
future')` of the date-math helper is the `Except.error` case. -/
def ageValidate (opts : AgeValidatorOptions) (now : JSDate) (value : Option AgeInput) :
    Except String AgeValidationResult :=
  match value with
  | none => .ok (ageCreateError "AGE_REQUIRED" "Age is required")
  | some (.date d) =>
    if !opts.validateFromDate then
      .ok (ageCreateError "DATE_NOT_ALLOWED" "Expected age as number, received date")
    else if jsDateLtB now d then .error "Birth date cannot be in the future"
    else
      .ok (ageFinish opts (JSNum.val (calculateAgeFromDate opts d now).1)
        (some (calculateAgeFromDate opts d now).1) (some (calculateAgeFromDate opts d now).2))
  | some (.num n) => .ok (ageFinish opts n none none)

/-! ### Bank account validator (src/validators/financial/bank-account.validator.ts) -/

/-- `BankAccountData`: all fields optional. -/
structure BankAccountData where
  accountNumber : Option String := none
  routingNumber : Option String := none
  accountName : Option String := none
  bankName : Option String := none
  accountType : Option String := none
  deriving Repr

/-- `BankAccountValidatorOptions` after the constructor's shallow merge;
the `routingNumberPattern` regex is a predicate. -/
structure BankAccountValidatorOptions where
  accountNumberRequired : Bool
  routingNumberRequired : Bool
  accountNameRequired : Bool
  bankNameRequired : Bool
  accountTypeRequired : Bool
  allowedAccountTypes : List String
  minAccountNumberLength : ℕ
  maxAccountNumberLength : ℕ
  routingNumberPattern : String → Bool
  validateRoutingChecksum : Bool

/-- The default `routingNumberPattern`, `/^[0-9]{9}$/`. -/
def nineDigitTest (s : String) : Bool := s.data.length = 9 && s.data.all Char.isDigit

/-- Constructor defaults of `BankAccountValidator`. -/
def bankDefaults : BankAccountValidatorOptions :=
  { accountNumberRequired := true, routingNumberRequired := true, accountNameRequired := true,
    bankNameRequired := false, accountTypeRequired := false,
    allowedAccountTypes := ["checking", "savings", "business"],
    minAccountNumberLength := 5, maxAccountNumberLength := 17,
    routingNumberPattern := nineDigitTest, validateRoutingChecksum := true }

/-- `parseInt` of a single character: its digit value, NaN (`none`)
otherwise. -/
def charDigit? (c : Char) : Option ℕ := if c.isDigit then some (charDigitVal c) else none

/-- Digit values of a character list; `none` (NaN propagation) as soon as
one character is not a digit. -/
def digitVals? : List Char → Option (List ℕ)
  | [] => some []
  | c :: cs =>
    match charDigit? c, digitVals? cs with
    | some d, some ds => some (d :: ds)
    | _, _ => none

/-- The positional weights of the ABA routing checksum. -/
def abaWeights : List ℕ := [3, 7, 1, 3, 7, 1, 3, 7, 1]

/-- `BankAccountValidator.validateRoutingChecksum`: a `none` from any
`charDigit?` models the NaN that a non-digit character's `parseInt`
propagates into the sum (`NaN % 10 === 0` is false). -/
def routingChecksum (routingNumber : String) : Bool :=
  if routingNumber = "" || !(routingNumber.data.length = 9) then false
  else
    match digitVals? routingNumber.data with
    | none => false
    | some ds => (List.zipWith (fun d w => d * w) ds abaWeights).sum % 10 = 0

/-- `BankAccountValidator.validate`. -/
def bankValidate (opts : BankAccountValidatorOptions) (bankAccount : Option BankAccountData) :
    ValidationResult BankAccountData :=
  match bankAccount with
  | none => createError "BANK_ACCOUNT_REQUIRED" "Bank account data is required"
  | some a =>
    if opts.accountNumberRequired && !optTruthy a.accountNumber then
      createError "ACCOUNT_NUMBER_REQUIRED" "Account number is required"
    else if optTruthy a.accountNumber &&
        ((a.accountNumber.getD "").data.filter Char.isDigit).length < opts.minAccountNumberLength then
      createError "ACCOUNT_NUMBER_TOO_SHORT"
        s!"Account number must have at least {opts.minAccountNumberLength} digits"
    else if optTruthy a.accountNumber &&
        opts.maxAccountNumberLength < ((a.accountNumber.getD "").data.filter Char.isDigit).length then
      createError "ACCOUNT_NUMBER_TOO_LONG"
        s!"Account number must not exceed {opts.maxAccountNumberLength} digits"
    else if opts.routingNumberRequired && !optTruthy a.routingNumber then
      createError "ROUTING_NUMBER_REQUIRED" "Routing number is required"
    else if optTruthy a.routingNumber && !opts.routingNumberPattern (a.routingNumber.getD "") then
      createError "INVALID_ROUTING_NUMBER_FORMAT" "Routing number format is invalid. Must be 9 digits."
    else if opts.validateRoutingChecksum && optTruthy a.routingNumber &&
        !routingChecksum (a.routingNumber.getD "") then
      createError "INVALID_ROUTING_NUMBER_CHECKSUM" "Routing number checksum validation failed"
    else if opts.accountNameRequired && !optTruthy a.accountName then
      createError "ACCOUNT_NAME_REQUIRED" "Account name is required"
    else if opts.bankNameRequired && !optTruthy a.bankName then
      createError "BANK_NAME_REQUIRED" "Bank name is required"
    else if opts.accountTypeRequired && !optTruthy a.accountType then
      createError "ACCOUNT_TYPE_REQUIRED" "Account type is required"
    else if optTruthy a.accountType && !(opts.allowedAccountTypes = []) &&
        !(opts.allowedAccountTypes.contains (jsToLower (a.accountType.getD ""))) then
      createError "ACCOUNT_TYPE_NOT_ALLOWED"
        ("Account type must be one of: " ++ String.intercalate ", " opts.allowedAccountTypes)
    else
      createSuccess
        { accountNumber := a.accountNumber.map jsTrim
          routingNumber := a.routingNumber.map jsTrim
          accountName := a.accountName.map jsTrim
          bankName := a.bankName.map jsTrim
          accountType := a.accountType.map (fun t => jsTrim (jsToLower t)) }

/-! ### Credit card validator (src/validators/financial/credit-card.validator.ts) -/

/-- The `CardType` enum. -/
inductive CardType where
  | visa | mastercard | amex | discover | diners | jcb | unknown
  deriving Repr, DecidableEq

/-- `CreditCardData`: all fields optional. -/
structure CreditCardData where
  number : Option String := none
  expiry : Option String := none
  cvv : Option String := none
  name : Option String := none
  deriving Repr

/-- `CreditCardResult`: the data plus the detected card type. -/
structure CreditCardResult where
  number : Option String := none
  expiry : Option String := none
  cvv : Option String := none
  name : Option String := none
  cardType : CardType
  deriving Repr, DecidableEq

/-- `CreditCardValidatorOptions` after the constructor's shallow merge. -/
structure CreditCardValidatorOptions where
  numberRequired : Bool
  expiryRequired : Bool
  cvvRequired : Bool
  nameRequired : Bool
  allowedCardTypes : List CardType
  validateLuhn : Bool
  deriving Repr

/-- Constructor defaults of `CreditCardValidator` (`allowedCardTypes` is
every type except `unknown`). -/
def ccDefaults : CreditCardValidatorOptions :=
  { numberRequired := true, expiryRequired := true, cvvRequired := true, nameRequired := false,
    allowedCardTypes := [.visa, .mastercard, .amex, .discover, .diners, .jcb],
    validateLuhn := true }

/-- Visa pattern `^4[0-9]{12}(?:[0-9]{3})?$`: 13 or 16 digits starting
with 4. -/
def visaTest (cs : List Char) : Bool :=
  cs.all Char.isDigit && startsWithList ['4'] cs && (cs.length = 13 || cs.length = 16)

/-- Mastercard pattern
`^(5[1-5][0-9]{14}|2(22[1-9][0-9]{12}|2[3-9][0-9]{13}|[3-6][0-9]{14}|7[0-1][0-9]{13}|720[0-9]{12}))$`:
16 digits whose prefix is 51–55 or 2221–2720. -/
def mastercardTest (cs : List Char) : Bool :=
  cs.all Char.isDigit && cs.length = 16 &&
  (match cs with
   | c0 :: c1 :: c2 :: c3 :: _ =>
     (c0 = '5' && '1' ≤ c1 && c1 ≤ '5') ||
     (c0 = '2' &&
       ((c1 = '2' && c2 = '2' && '1' ≤ c3 && c3 ≤ '9') ||
        (c1 = '2' && '3' ≤ c2 && c2 ≤ '9') ||
        ('3' ≤ c1 && c1 ≤ '6') ||
        (c1 = '7' && ('0' ≤ c2 && c2 ≤ '1')) ||
        (c1 = '7' && c2 = '2' && c3 = '0')))
   | _ => false)

/-- Amex pattern `^3[47][0-9]{13}$`: 15 digits starting with 34 or 37. -/
def amexTest (cs : List Char) : Bool :=
  cs.all Char.isDigit && cs.length = 15 &&
  (startsWithList ['3', '4'] cs || startsWithList ['3', '7'] cs)

/-- Discover pattern `^6(?:011|5[0-9]{2})[0-9]{12}$`: 16 digits starting
with 6011 or 65. -/
def discoverTest (cs : List Char) : Bool :=
  cs.all Char.isDigit && cs.length = 16 &&
  (startsWithList ['6', '0', '1', '1'] cs || startsWithList ['6', '5'] cs)

/-- Diners pattern `^3(?:0[0-5]|[68][0-9])[0-9]{11}$`: 14 digits starting
with 300–305, 36 or 38. -/
def dinersTest (cs : List Char) : Bool :=
  cs.all Char.isDigit && cs.length = 14 &&
  (match cs with
   | c0 :: c1 :: c2 :: _ =>
     c0 = '3' && ((c1 = '0' && '0' ≤ c2 && c2 ≤ '5') || c1 = '6' || c1 = '8')
   | _ => false)

/-- JCB pattern `^(?:2131|1800|35\d{3})\d{11}$`: 15 digits starting with
2131 or 1800, or 16 digits starting with 35. -/
def jcbTest (cs : List Char) : Bool :=
  cs.all Char.isDigit &&
  ((cs.length = 15 && (startsWithList ['2', '1', '3', '1'] cs || startsWithList ['1', '8', '0', '0'] cs)) ||
   (cs.length = 16 && startsWithList ['3', '5'] cs))

/-- `CreditCardValidator.detectCardType`: first matching pattern of
`cardPatterns`, in declaration order. -/
def detectCardType (cardNumber : String) : CardType :=
  if visaTest cardNumber.data then .visa
  else if mastercardTest cardNumber.data then .mastercard
  else if amexTest cardNumber.data then .amex
  else if discoverTest cardNumber.data then .discover
  else if dinersTest cardNumber.data then .diners
  else if jcbTest cardNumber.data then .jcb
  else .unknown

/-- Luhn doubling of one digit value: double, subtract 9 if the double
exceeds 9. -/
def luhnDouble (d : ℕ) : ℕ := if 9 < d * 2 then d * 2 - 9 else d * 2

/-- The right-to-left loop of `validateLuhnChecksum`: the digits arrive
rightmost first, `alternate` tells whether the current digit is doubled,
`acc` is the running sum. -/
def luhnLoop : List Char → Bool → ℕ → ℕ
  | [], _, acc => acc
  | c :: rest, alternate, acc =>
    luhnLoop rest (!alternate)
      (acc + (if alternate then luhnDouble (charDigitVal c) else charDigitVal c))

/-- `CreditCardValidator.validateLuhnChecksum`. -/
def validateLuhnChecksum (cardNumber : String) : Bool :=
  if cardNumber = "" || !(cardNumber.data.all Char.isDigit) then false
  else luhnLoop cardNumber.data.reverse false 0 % 10 = 0

/-- `expiryPattern = /^(0[1-9]|1[0-2])\/([0-9]{2}|[0-9]{4})$/`. -/
def expiryTest (cs : List Char) : Bool :=
  match splitOnChar '/' cs with
  | [m, y] =>
    (match m with
     | [m0, m1] => (m0 = '0' && '1' ≤ m1 && m1 ≤ '9') || (m0 = '1' && '0' ≤ m1 && m1 ≤ '2')
     | _ => false) &&
    y.all Char.isDigit && (y.length = 2 || y.length = 4)
  | _ => false

/-- The year string used by `validateExpiryDate`:
`yearStr.length === 2 ? '20' + yearStr : yearStr`. -/
def expiryYearString (yearStr : String) : String :=
  if yearStr.data.length = 2 then "20" ++ yearStr else yearStr

/-- `new Date(year, month)` for non-negative integer arguments: years 0–99
are 1900-based (the JavaScript `Date` constructor quirk), a month ≥ 12
rolls over into the following years.  Day 1, local midnight. -/
def jsDateOfYM (year month : ℕ) : JSDate :=
  let y := if year ≤ 99 then 1900 + year else year
  { year := (y : ℤ) + (month / 12 : ℕ), month := month % 12, day := 1, ms := 0 }

/-- `date.setDate(0)`: move to the last day of the preceding month. -/
def jsSetDateZero (d : JSDate) : JSDate :=
  if d.month = 0 then { year := d.year - 1, month := 11, day := daysInMonth (d.year - 1) 12, ms := d.ms }
  else { year := d.year, month := d.month - 1, day := daysInMonth d.year d.month, ms := d.ms }

/-- The `expiryDate` computed by `validateExpiryDate`: `new
Date(parseInt(year), parseInt(month))` followed by `setDate(0)`, i.e. local
midnight of the last day of the expiry month.  `none` models the invalid
date a NaN component produces (unreachable after `expiryPattern`). -/
def expiryLastDay (expiry : String) : Option JSDate :=
  match splitOnChar '/' expiry.data with
  | [m, y] =>
    match jsParseIntNat (expiryYearString (String.mk y)), jsParseIntNat (String.mk m) with
    | some year, some month => some (jsSetDateZero (jsDateOfYM year month))
    | _, _ => none
  | _ => none

/-- `CreditCardValidator.validateExpiryDate`: `expiryDate >= currentDate`
(an invalid date compares false). -/
def validateExpiryDate (now : JSDate) (expiry : String) : Bool :=
  match expiryLastDay expiry with
  | some d => jsDateLeB now d
  | none => false

/-- Chunks of four characters, in order, mirroring the
`for (i = 0; i < combined.length; i += 4) formatted += combined.substr(i, 4) + ' '`
loop of `maskCardNumber`. -/
def chunk4 : List Char → List (List Char)
  | [] => []
  | [a] => [[a]]
  | [a, b] => [[a, b]]
  | [a, b, c] => [[a, b, c]]
  | a :: b :: c :: d :: rest => [a, b, c, d] :: chunk4 rest

/-- The `combined` local of `maskCardNumber`: `maskedPart + lastFourDigits`
with `lastFourDigits = cardNumber.slice(-4)` and `maskedPart =
cardNumber.slice(0, -4).replace(/./g, '*')` (all characters starred; on the
digit strings the validator masks, `.` matches every character). -/
def maskCombined (cs : List Char) : List Char :=
  (cs.take (cs.length - 4)).map (fun _ => '*') ++ cs.drop (cs.length - 4)

/-- `CreditCardValidator.maskCardNumber`: keep the last four characters,
star the rest, group into four-character chunks each followed by `' '` (the
loop leaves a trailing space that the final `.trim()` removes). -/
def maskCardNumber (cardNumber : String) : String :=
  if cardNumber = "" || cardNumber.data.length < 4 then cardNumber
  else
    String.mk (jsTrimList ((chunk4 (maskCombined cardNumber.data)).map (fun b => b ++ [' '])).flatten)

/-- The stripping step `card.number?.replace(/[\s-]/g, '')` applied to a
present number. -/
def stripCardNumber (n : String) : String :=
  String.mk (n.data.filter (fun ch => !(isJsWhitespace ch || ch = '-')))

/-- String value of a `CardType` (the TS enum members are these strings,
and template literals interpolate them). -/
def cardTypeStr : CardType → String
  | .visa => "visa"
  | .mastercard => "mastercard"
  | .amex => "amex"
  | .discover => "discover"
  | .diners => "diners"
  | .jcb => "jcb"
  | .unknown => "unknown"

/-- The CVV length required for a card type (`cvvLengths`). -/
def requiredCvvLength (cardType : CardType) : ℕ := if cardType = .amex then 4 else 3

/-- The `processedNumber` local of `CreditCardValidator.validate`. -/
def ccProcessedNumber (c : CreditCardData) : Option String := c.number.map stripCardNumber

/-- The `cardType` local of `CreditCardValidator.validate`: detected from
the processed number when that is truthy, `unknown` otherwise. -/
def ccCardType (c : CreditCardData) : CardType :=
  if optTruthy (ccProcessedNumber c) then detectCardType ((ccProcessedNumber c).getD "")
  else .unknown

/-- `CreditCardValidator.validate`.  `now` is the `new Date()` read by
`validateExpiryDate`. -/
def ccValidate (opts : CreditCardValidatorOptions) (now : JSDate)
    (card : Option CreditCardData) : ValidationResult CreditCardResult :=
  match card with
  | none => createError "CREDIT_CARD_REQUIRED" "Credit card data is required"
  | some c =>
    if opts.numberRequired && !optTruthy c.number then
      createError "CARD_NUMBER_REQUIRED" "Card number is required"
    else if optTruthy (ccProcessedNumber c) && !(ccCardType c = .unknown) &&
        !(opts.allowedCardTypes.contains (ccCardType c)) then
      createError "CARD_TYPE_NOT_ALLOWED" s!"Card type {cardTypeStr (ccCardType c)} is not accepted"
    else if optTruthy (ccProcessedNumber c) && ccCardType c = .unknown then
      createError "INVALID_CARD_NUMBER_FORMAT" "Card number format is not recognized"
    else if optTruthy (ccProcessedNumber c) && opts.validateLuhn &&
        !validateLuhnChecksum ((ccProcessedNumber c).getD "") then
      createError "INVALID_CARD_NUMBER_CHECKSUM" "Card number failed checksum validation"
    else if opts.expiryRequired && !optTruthy c.expiry then
      createError "EXPIRY_REQUIRED" "Expiration date is required"
    else if optTruthy c.expiry && !expiryTest (c.expiry.getD "").data then
      createError "INVALID_EXPIRY_FORMAT" "Expiration date must be in MM/YY or MM/YYYY format"
    else if optTruthy c.expiry && !validateExpiryDate now (c.expiry.getD "") then
      createError "EXPIRED_CARD" "Credit card has expired"
    else if opts.cvvRequired && !optTruthy c.cvv then
      createError "CVV_REQUIRED" "CVV is required"
    else if optTruthy c.cvv &&
        !(!((c.cvv.getD "").data = []) && (c.cvv.getD "").data.all Char.isDigit &&
          (c.cvv.getD "").data.length = requiredCvvLength (ccCardType c)) then
      createError "INVALID_CVV"
        s!"CVV must be {requiredCvvLength (ccCardType c)} digits for {cardTypeStr (ccCardType c)} cards"
    else if opts.nameRequired && !optTruthy c.name then
      createError "CARDHOLDER_NAME_REQUIRED" "Cardholder name is required"
    else
      createSuccess
        { number := some (maskCardNumber ((ccProcessedNumber c).getD ""))
          expiry := c.expiry.map jsTrim
          cvv := c.cvv.map jsTrim
          name := c.name.map jsTrim
          cardType := ccCardType c }

/-! ### URL validator (the boolean-API validator of src/validators/url)

`URLValidator` keeps a mutable `lastError` field which `validate` and its
private helpers overwrite on every failing check (and never read).  The
helpers are modelled as functions returning `none` on success and `some
message` on failure; `urlValidateS` threads the `lastError` state
explicitly.  The host-environment WHATWG `new URL(value)` parser is not
part of the repository and is taken as a parameter `parse` returning the
components record (`none` models a thrown parse error). -/

/-- The components of a parsed WHATWG `URL` object. -/
structure JSURL where
  protocol : String := ""
  hostname : String := ""
  port : String := ""
  pathname : String := ""
  search : String := ""
  hash : String := ""
  username : String := ""
  password : String := ""
  searchParams : List (String × String) := []
  deriving Repr

/-- `URLValidatorOptions` after the constructor's defaulting (`null` option
values are `none`; the `pathPattern` regex is a predicate). -/
structure URLValidatorOptions where
  requireProtocol : Bool
  allowedProtocols : List String
  allowedDomains : Option (List String)
  allowedTLDs : Option (List String)
  allowSubdomains : Bool
  allowIPAddresses : Bool
  requireSpecificPort : Bool
  allowedPorts : Option (List ℕ)
  disallowPorts : Option (List ℕ)
  requirePath : Bool
  pathPattern : Option (String → Bool)
  maxPathSegments : Option ℕ
  allowQuery : Bool
  requiredQueryParams : Option (List String)
  allowedQueryParams : Option (List String)
  allowFragment : Bool
  allowAuth : Bool
  maxLength : ℕ
  errorMessage : String

/-- Constructor defaults of `URLValidator`. -/
def urlDefaults : URLValidatorOptions :=
  { requireProtocol := true, allowedProtocols := ["http:", "https:"],
    allowedDomains := none, allowedTLDs := none, allowSubdomains := true,
    allowIPAddresses := false, requireSpecificPort := false,
    allowedPorts := none, disallowPorts := none, requirePath := false,
    pathPattern := none, maxPathSegments := none, allowQuery := true,
    requiredQueryParams := none, allowedQueryParams := none,
    allowFragment := true, allowAuth := false, maxLength := 2083,
    errorMessage := "Invalid URL" }

/-- `URLValidator._isIPAddress`: the simple IPv4 test (each 1–3 digit octet
at most 255) or the simple bracketed IPv6 test `^(\[[0-9a-fA-F:]+\])$`. -/
def isIPAddress (hostname : String) : Bool :=
  let parts := splitOnChar '.' hostname.data
  if parts.length = 4 &&
      parts.all (fun p => decide (1 ≤ p.length) && decide (p.length ≤ 3) && p.all Char.isDigit) then
    parts.all (fun p => digitsToNat p ≤ 255)
  else
    startsWithList ['['] hostname.data && endsWithList [']'] hostname.data &&
    (let inner := (hostname.data.drop 1).take (hostname.data.length - 2)
     !(inner = []) && inner.all (fun c => c.isDigit || ('a' ≤ c && c ≤ 'f') || ('A' ≤ c && c ≤ 'F') || c = ':'))

/-- `URLValidator._validateProtocol`. -/
def urlValidateProtocol (o : URLValidatorOptions) (u : JSURL) : Option String :=
  if o.requireProtocol && u.protocol = "" then some "URL must include a protocol"
  else if !(u.protocol = "") && !(o.allowedProtocols.contains u.protocol) then
    some ("URL protocol must be one of: " ++ String.intercalate ", " o.allowedProtocols)
  else none

/-- `URLValidator._validateDomain`. -/
def urlValidateDomain (o : URLValidatorOptions) (u : JSURL) : Option String :=
  let isIP := isIPAddress u.hostname
  if isIP && !o.allowIPAddresses then some "IP addresses are not allowed in URLs"
  else if !isIP &&
      (match o.allowedDomains with
       | some doms =>
         !(doms.any (fun d =>
           u.hostname = d || (o.allowSubdomains && endsWithList ("." ++ d).data u.hostname.data)))
       | none => false) then
    some ("URL domain must be one of: " ++
      String.intercalate ", " ((o.allowedDomains).getD []) ++
      (if o.allowSubdomains then " or their subdomains" else ""))
  else if !isIP &&
      (match o.allowedTLDs with
       | some tlds => !(tlds.any (fun t => endsWithList t.data u.hostname.data))
       | none => false) then
    some ("URL must end with one of these TLDs: " ++ String.intercalate ", " ((o.allowedTLDs).getD []))
  else none

/-- `URLValidator._validatePort`. -/
def urlValidatePort (o : URLValidatorOptions) (u : JSURL) : Option String :=
  if o.requireSpecificPort && u.port = "" then some "URL must specify a port"
  else if !(u.port = "") &&
      (match o.allowedPorts with
       | some l => !(l.contains ((jsParseIntNat u.port).getD 0))
       | none => false) then
    some ("URL port must be one of: " ++
      String.intercalate ", " (((o.allowedPorts).getD []).map toString))
  else if !(u.port = "") &&
      (match o.disallowPorts with
       | some l => l.contains ((jsParseIntNat u.port).getD 0)
       | none => false) then
    some ("URL port cannot be one of: " ++
      String.intercalate ", " (((o.disallowPorts).getD []).map toString))
  else none

/-- `URLValidator._validatePath`. -/
def urlValidatePath (o : URLValidatorOptions) (u : JSURL) : Option String :=
  if o.requirePath && (u.pathname = "/" || u.pathname = "") then some "URL must include a path"
  else if (match o.pathPattern with
           | some p => !(u.pathname = "/") && !(p u.pathname)
           | none => false) then
    some "URL path does not match the required pattern"
  else if ((match o.maxPathSegments with
           | some mx => decide (mx < ((splitOnChar '/' u.pathname.data).filter (fun s => 0 < s.length)).length)
           | none => false : Bool)) then
    some s!"URL path exceeds maximum of {(o.maxPathSegments).getD 0} segments"
  else none

/-- `URLValidator._validateQuery`: the source iterates the required and the
actual parameter names in order and reports the first violation. -/
def urlValidateQuery (o : URLValidatorOptions) (u : JSURL) : Option String :=
  let hasQuery := 0 < u.search.data.length
  if !o.allowQuery && hasQuery then some "Query parameters are not allowed in the URL"
  else if hasQuery then
    match (match o.requiredQueryParams with
           | some req => req.find? (fun rp => !(u.searchParams.any (fun kv => kv.1 = rp)))
           | none => none) with
    | some missing => some s!"URL must include the required query parameter: {missing}"
    | none =>
      match o.allowedQueryParams with
      | some allowed =>
        match (u.searchParams.map Prod.fst).find? (fun p => !(allowed.contains p)) with
        | some bad =>
          some (s!"Query parameter '{bad}' is not allowed. Allowed parameters are: " ++
            String.intercalate ", " allowed)
        | none => none
      | none => none
  else none

/-- `URLValidator._validateFragment`. -/
def urlValidateFragment (o : URLValidatorOptions) (u : JSURL) : Option String :=
  if !o.allowFragment && 0 < u.hash.data.length then
    some "Fragments (hash) are not allowed in the URL"
  else none

/-- `URLValidator._validateAuth`. -/
def urlValidateAuth (o : URLValidatorOptions) (u : JSURL) : Option String :=
  if !o.allowAuth && (!(u.username = "") || !(u.password = "")) then
    some "Authentication credentials are not allowed in the URL"
  else none

/-- Occurrence of `"://"` in a string (`value.includes('://')`). -/
def hasProtocolSep : List Char → Bool
  | ':' :: '/' :: '/' :: _ => true
  | _ :: rest => hasProtocolSep rest
  | [] => false

/-- `URLValidator.validate`, with the assignment to `this.lastError` made
explicit: the boolean outcome together with the error message the call
stores, `none` when the call succeeds (and therefore leaves `lastError`
untouched). -/
def urlValidate (parse : String → Option JSURL) (o : URLValidatorOptions)
    (value : String) : Bool × Option String :=
  if o.maxLength < value.data.length then
    (false, some s!"URL exceeds maximum length of {o.maxLength} characters")
  else
    match parse value with
    | none =>
      (false, some (if o.requireProtocol && !hasProtocolSep value.data then
        "URL must include a protocol (e.g., http://, https://)"
      else "Invalid URL format"))
    | some url =>
      match urlValidateProtocol o url with
      | some e => (false, some e)
      | none =>
      match urlValidateDomain o url with
      | some e => (false, some e)
      | none =>
      match urlValidatePort o url with
      | some e => (false, some e)
      | none =>
      match urlValidatePath o url with
      | some e => (false, some e)
      | none =>
      match urlValidateQuery o url with
      | some e => (false, some e)
      | none =>
      match urlValidateFragment o url with
      | some e => (false, some e)
      | none =>
      match urlValidateAuth o url with
      | some e => (false, some e)
      | none => (true, none)

/-- One call of `URLValidator.validate` on an instance whose `lastError`
field currently holds `lastError`: the returned boolean and the field's
value after the call. -/
def urlValidateS (parse : String → Option JSURL) (o : URLValidatorOptions)
    (lastError : String) (value : String) : Bool × String :=
  match urlValidate parse o value with
  | (b, some e) => (b, e)
  | (b, none) => (b, lastError)

/-! ### Specification-side definitions

The following definitions transcribe formulas of the specification text
(not the source); the theorems below compare them with the source-derived
functions. -/

/-- Spec formula for the ABA routing checksum: `Σ(digit[i] * weight[i])`
over the weights `[3,7,1,3,7,1,3,7,1]`. -/
def abaSpecSum (s : String) : ℕ :=
  (List.zipWith (fun d w => d * w) (s.data.map charDigitVal) abaWeights).sum

/-- Spec formula for the Luhn sum, digits given rightmost first: the digit
at (0-based) position `k` is doubled (with 9 subtracted when the double
exceeds 9) exactly when `k` is odd, i.e. for every second digit counted
from the rightmost. -/
def luhnSpecFrom : ℕ → List ℕ → ℕ
  | _, [] => 0
  | k, d :: ds => (if k % 2 = 1 then luhnDouble d else d) + luhnSpecFrom (k + 1) ds

/-- Spec formula for the Luhn sum of a digit string: process the digit
values from the rightmost digit leftward. -/
def luhnSpecSum (s : String) : ℕ := luhnSpecFrom 0 (s.data.map charDigitVal).reverse

/-- Spec formula for grouping: the given blocks separated by single
spaces. -/
def sepSpace : List (List Char) → List Char
  | [] => []
  | [b] => b
  | b :: bs => b ++ [' '] ++ sepSpace bs

/-- The result-shape invariant, applied to a `ValidationResult`. -/
def ResultOk {T : Type} (r : ValidationResult T) : Prop :=
  ResultInvariant r.isValid r.value.isSome r.errors

/-- The result-shape invariant, applied to an `AgeValidationResult`. -/
def AgeResultOk (r : AgeValidationResult) : Prop :=
  ResultInvariant r.isValid r.value.isSome r.errors

/-- Code of the first error of an age validation that returned (did not
throw), `none` for a throw or a success. -/
def ageErrCodeE (r : Except String AgeValidationResult) : Option String :=
  match r with
  | .ok r => ageErrCode r
  | .error _ => none

/-! ### Theorems -/

lemma resultOk_error {T : Type} (c m : String) : ResultOk (createError (T := T) c m) := by
  unfold ResultOk ResultInvariant createError
  refine ⟨by simp, by simp⟩

lemma resultOk_success {T : Type} (v : T) : ResultOk (createSuccess v) := by
  unfold ResultOk ResultInvariant createSuccess
  refine ⟨by simp, by simp⟩

lemma resultOk_ite {T : Type} (c : Prop) [Decidable c] (t e : ValidationResult T)
    (ht : ResultOk t) (he : ResultOk e) : ResultOk (if c then t else e) := by
  split
  · exact ht
  · exact he

lemma ageResultOk_error (c m : String) : AgeResultOk (ageCreateError c m) := by
  unfold AgeResultOk ResultInvariant ageCreateError
  refine ⟨by simp, by simp⟩

lemma ageResultOk_ite (c : Prop) [Decidable c] (t e : AgeValidationResult)
    (ht : AgeResultOk t) (he : AgeResultOk e) : AgeResultOk (if c then t else e) := by
  split
  · exact ht
  · exact he

lemma emailValidate_ok (opts : EmailValidatorOptions) (email : String) :
    ResultOk (emailValidate opts email) := by
  unfold emailValidate
  repeat
    first
    | exact resultOk_error _ _
    | exact resultOk_success _
    | apply resultOk_ite

lemma phoneValidate_ok (opts : PhoneValidatorOptions) (phone : String) :
    ResultOk (phoneValidate opts phone) := by
  unfold phoneValidate
  repeat
    first
    | exact resultOk_error _ _
    | exact resultOk_success _
    | apply resultOk_ite

lemma bankValidate_ok (opts : BankAccountValidatorOptions) (acct : Option BankAccountData) :
    ResultOk (bankValidate opts acct) := by
  rcases acct with _ | a
  all_goals unfold bankValidate
  all_goals repeat
    first
    | exact resultOk_error _ _
    | exact resultOk_success _
    | apply resultOk_ite

lemma ccValidate_ok (opts : CreditCardValidatorOptions) (now : JSDate)
    (card : Option CreditCardData) : ResultOk (ccValidate opts now card) := by
  rcases card with _ | c
  all_goals unfold ccValidate
  all_goals repeat
    first
    | exact resultOk_error _ _
    | exact resultOk_success _
    | apply resultOk_ite

lemma ageFinish_ok (opts : AgeValidatorOptions) (age : JSNum) (calcAge : Option ℚ)
    (det : Option DetailedAge) : AgeResultOk (ageFinish opts age calcAge det) := by
  rcases age with _ | a
  all_goals unfold ageFinish
  · exact ageResultOk_error _ _
  · repeat
      first
      | exact ageResultOk_error _ _
      | apply ageResultOk_ite
      | exact ⟨by simp, by simp⟩

lemma ageValidate_ok (opts : AgeValidatorOptions) (now : JSDate) (v : Option AgeInput)
    (r : AgeValidationResult) (h : ageValidate opts now v = .ok r) : AgeResultOk r := by
  unfold ageValidate at h
  rcases v with _ | input
  · cases h; exact ageResultOk_error _ _
  · rcases input with n | d
    · cases h; exact ageFinish_ok _ _ _ _
    · dsimp only at h
      by_cases hvf : (!opts.validateFromDate) = true
      · rw [if_pos hvf] at h
        cases h; exact ageResultOk_error _ _
      · rw [if_neg hvf] at h
        by_cases hlt : jsDateLtB now d = true
        · rw [if_pos hlt] at h
          exact absurd h (by simp)
        · rw [if_neg hlt] at h
          cases h; exact ageFinish_ok _ _ _ _

/-- C1.  For every embedded validator (email, phone, bank account, credit
card, age), every configuration and every input — including absent (`none`)
and empty input — the returned result satisfies the result invariant:
`isValid = true` iff `value` is present and `errors` absent, and `isValid =
false` iff `value` is absent and `errors` holds exactly one
`ValidationError` (the first failing rule short-circuits).  For the age
validator the invariant is stated for every call that returns (rather than
throws). -/
theorem c1_result_invariant :
    (∀ (opts : EmailValidatorOptions) (email : String), ResultOk (emailValidate opts email)) ∧
    (∀ (opts : PhoneValidatorOptions) (phone : String), ResultOk (phoneValidate opts phone)) ∧
    (∀ (opts : BankAccountValidatorOptions) (acct : Option BankAccountData),
      ResultOk (bankValidate opts acct)) ∧
    (∀ (opts : CreditCardValidatorOptions) (now : JSDate) (card : Option CreditCardData),
      ResultOk (ccValidate opts now card)) ∧
    (∀ (opts : AgeValidatorOptions) (now : JSDate) (v : Option AgeInput)
      (r : AgeValidationResult), ageValidate opts now v = .ok r → AgeResultOk r) :=
  ⟨emailValidate_ok, phoneValidate_ok, bankValidate_ok, ccValidate_ok, ageValidate_ok⟩

/-- C1 witness: the age conjunct applied at the default configuration and
input `0`, with its hypothesis discharged by evaluation. -/
theorem c1_result_invariant_witness :
    AgeResultOk (ageFinish ageDefaults (JSNum.val 0) none none) :=
  c1_result_invariant.2.2.2.2 ageDefaults ⟨2025, 9, 11, 0⟩ (some (.num (.val 0))) _ rfl

lemma getErrCode_ite_ne {T : Type} (c : Prop) [Decidable c] (t e : ValidationResult T)
    (code : String) (ht : getErrCode t ≠ some code) (he : getErrCode e ≠ some code) :
    getErrCode (if c then t else e) ≠ some code := by
  split
  · exact ht
  · exact he

/-- C9.  With `requireCountryCode = false`, a phone number that does not
begin with `'+'` can never fail with `COUNTRY_CODE_NOT_ALLOWED`, whatever
allowed-country-code list is configured: the allowed-codes restriction is
guarded by `phone.startsWith('+')`. -/
theorem c9_no_plus_no_country_error (opts : PhoneValidatorOptions) (phone : String)
    (hreq : opts.requireCountryCode = false)
    (hplus : startsWithList ['+'] phone.data = false) :
    getErrCode (phoneValidate opts phone) ≠ some "COUNTRY_CODE_NOT_ALLOWED" := by
  unfold phoneValidate
  rw [hreq, hplus]
  simp only [Bool.false_and, Bool.false_eq_true, if_false]
  repeat
    first
    | apply getErrCode_ite_ne
    | simp [getErrCode, createError, createSuccess]

/-- C9 witness: allowed-country-codes `["1"]` with a plain ten-digit number. -/
theorem c9_witness :
    getErrCode (phoneValidate { phoneDefaults with allowedCountryCodes := ["1"] } "2025550123")
      ≠ some "COUNTRY_CODE_NOT_ALLOWED" :=
  c9_no_plus_no_country_error _ _ rfl (by decide)

lemma ageErrCode_ite_ne (c : Prop) [Decidable c] (t e : AgeValidationResult)
    (code : String) (ht : ageErrCode t ≠ some code) (he : ageErrCode e ≠ some code) :
    ageErrCode (if c then t else e) ≠ some code := by
  split
  · exact ht
  · exact he

lemma ageFinish_ne_req (opts : AgeValidatorOptions) (age : JSNum) (calcAge : Option ℚ)
    (det : Option DetailedAge) :
    ageErrCode (ageFinish opts age calcAge det) ≠ some "AGE_REQUIRED" := by
  rcases age with _ | a
  all_goals unfold ageFinish
  · simp [ageErrCode, ageCreateError]
  · repeat
      first
      | apply ageErrCode_ite_ne
      | simp [ageErrCode, ageCreateError]

/-- C10.  The age validator treats only `null`/`undefined` as missing
input: `AGE_REQUIRED` is produced exactly for `none`, and under the default
configuration (minAge 0, maxAge 120, decimals disallowed) `validate(0)`
succeeds with value `0` (for any current date — the numeric path never
reads the clock). -/
theorem c10_zero_is_valid :
    (∀ now : JSDate, ageValidate ageDefaults now (some (.num (.val 0))) =
      .ok { isValid := true, value := some 0 }) ∧
    (∀ (opts : AgeValidatorOptions) (now : JSDate) (v : Option AgeInput),
      ageErrCodeE (ageValidate opts now v) = some "AGE_REQUIRED" ↔ v = none) := by
  constructor
  · intro now
    rfl
  · intro opts now v
    rcases v with _ | input
    · simp [ageValidate, ageErrCodeE, ageErrCode, ageCreateError]
    · rcases input with n | d
      · simpa [ageValidate, ageErrCodeE] using ageFinish_ne_req opts n none none
      · unfold ageValidate
        dsimp only
        split
        · simp [ageErrCodeE, ageErrCode, ageCreateError]
        · split
          · simp [ageErrCodeE]
          · simpa [ageErrCodeE] using ageFinish_ne_req opts _ _ _

lemma digitVals_of_digits (l : List Char) (h : l.all Char.isDigit = true) :
    digitVals? l = some (l.map charDigitVal) := by
  induction l with
  | nil => rfl
  | cons c cs ih =>
    simp only [List.all_cons, Bool.and_eq_true] at h
    simp [digitVals?, charDigit?, h.1, ih h.2]

lemma getErrCode_ite_eq {T : Type} (c : Prop) [Decidable c] (t e : ValidationResult T)
    (code : String) (h : getErrCode (if c then t else e) = some code) :
    (c ∧ getErrCode t = some code) ∨ (¬c ∧ getErrCode e = some code) := by
  by_cases hc : c
  · rw [if_pos hc] at h
    exact Or.inl ⟨hc, h⟩
  · rw [if_neg hc] at h
    exact Or.inr ⟨hc, h⟩

/-- C2.  The bank-account validator applies the ABA routing checksum only
to routing numbers that already passed the format check (the default
`routingNumberPattern` being the 9-digit test); on a 9-digit digit string
the checksum succeeds iff the weighted digit sum with weights
`[3,7,1,3,7,1,3,7,1]` is divisible by 10; `021000021` passes and
`021000022` fails. -/
theorem c2_routing_checksum :
    (bankDefaults.routingNumberPattern = nineDigitTest) ∧
    (∀ (opts : BankAccountValidatorOptions) (a : BankAccountData),
      getErrCode (bankValidate opts (some a)) = some "INVALID_ROUTING_NUMBER_CHECKSUM" →
      optTruthy a.routingNumber = true ∧
        opts.routingNumberPattern (a.routingNumber.getD "") = true) ∧
    (∀ s : String, s.data.length = 9 → s.data.all Char.isDigit = true →
      (routingChecksum s = true ↔ abaSpecSum s % 10 = 0)) ∧
    routingChecksum "021000021" = true ∧ routingChecksum "021000022" = false := by
  refine ⟨rfl, ?_, ?_, by decide, by decide⟩
  · intro opts a h
    unfold bankValidate at h
    rcases getErrCode_ite_eq _ _ _ _ h with ⟨_, h⟩ | ⟨_, h⟩
    · exact absurd h (by simp [getErrCode, createError])
    rcases getErrCode_ite_eq _ _ _ _ h with ⟨_, h⟩ | ⟨_, h⟩
    · exact absurd h (by simp [getErrCode, createError])
    rcases getErrCode_ite_eq _ _ _ _ h with ⟨_, h⟩ | ⟨_, h⟩
    · exact absurd h (by simp [getErrCode, createError])
    rcases getErrCode_ite_eq _ _ _ _ h with ⟨_, h⟩ | ⟨_, h⟩
    · exact absurd h (by simp [getErrCode, createError])
    rcases getErrCode_ite_eq _ _ _ _ h with ⟨hfmt, h⟩ | ⟨hfmt, h⟩
    · exact absurd h (by simp [getErrCode, createError])
    rcases getErrCode_ite_eq _ _ _ _ h with ⟨hck, _⟩ | ⟨_, h⟩
    · simp only [Bool.and_eq_true, Bool.not_eq_true'] at hfmt hck
      refine ⟨hck.1.2, ?_⟩
      by_cases ht : optTruthy a.routingNumber = true
      · rcases Bool.eq_false_or_eq_true (opts.routingNumberPattern (a.routingNumber.getD ""))
          with hp | hp
        · exact hp
        · exact absurd ⟨ht, hp⟩ hfmt
      · exact absurd hck.1.2 ht
    · exfalso
      revert h
      repeat
        first
        | apply getErrCode_ite_ne
        | simp [getErrCode, createError, createSuccess]
  · intro s h9 hdig
    unfold routingChecksum
    have hne : ¬(s = "") := by
      intro he
      rw [he] at h9
      simp at h9
    rw [if_neg (by simp [hne, h9])]
    rw [digitVals_of_digits s.data hdig]
    unfold abaSpecSum
    simp

/-- C2 witness: the checksum-iff conjunct applied at the published routing
number `021000021`. -/
theorem c2_routing_checksum_witness :
    routingChecksum "021000021" = true ↔ abaSpecSum "021000021" % 10 = 0 :=
  c2_routing_checksum.2.2.1 "021000021" (by decide) (by decide)

lemma luhnSpecFrom_add_two (l : List ℕ) (k : ℕ) :
    luhnSpecFrom (k + 2) l = luhnSpecFrom k l := by
  induction l generalizing k with
  | nil => rfl
  | cons d ds ih =>
    unfold luhnSpecFrom
    rw [Nat.add_mod_right]
    rw [show k + 2 + 1 = k + 1 + 2 from by omega, ih (k + 1)]

lemma luhnLoop_eq_spec (l : List Char) (alt : Bool) (acc : ℕ) :
    luhnLoop l alt acc = acc + luhnSpecFrom (if alt then 1 else 0) (l.map charDigitVal) := by
  induction l generalizing alt acc with
  | nil => simp [luhnLoop, luhnSpecFrom]
  | cons c cs ih =>
    cases alt
    · rw [List.map_cons]
      unfold luhnLoop luhnSpecFrom
      rw [ih]
      simp
      omega
    · rw [List.map_cons]
      unfold luhnLoop luhnSpecFrom
      rw [ih]
      simp [show (1 : ℕ) + 1 = 0 + 2 from rfl, luhnSpecFrom_add_two]
      omega

/-- C3.  Luhn validation is on by default, and the credit-card validator's
checksum step accepts any all-digit card number of length 13–19 iff the
Luhn sum — doubling every second digit counted from the rightmost and
subtracting 9 from doubles above 9 — is divisible by 10. -/
theorem c3_luhn_checksum :
    ccDefaults.validateLuhn = true ∧
    ∀ s : String, 13 ≤ s.data.length → s.data.length ≤ 19 → s.data.all Char.isDigit = true →
      (validateLuhnChecksum s = true ↔ luhnSpecSum s % 10 = 0) := by
  refine ⟨rfl, ?_⟩
  intro s h13 _ hdig
  unfold validateLuhnChecksum
  have hne : ¬(s = "") := by
    intro he
    rw [he] at h13
    simp at h13
  rw [if_neg (by simp [hne, hdig])]
  rw [luhnLoop_eq_spec]
  unfold luhnSpecSum
  rw [← List.map_reverse]
  simp

/-- C3 witness: the checksum-iff applied at the 16-digit Visa test number. -/
theorem c3_luhn_checksum_witness :
    validateLuhnChecksum "4111111111111111" = true ↔
      luhnSpecSum "4111111111111111" % 10 = 0 :=
  c3_luhn_checksum.2 "4111111111111111" (by decide) (by decide) (by decide)

/-- C4 counterexample.  On the valid 15-digit Amex number
`371449635398431` the validator succeeds and returns the masked number
`"**** **** ***8 431"`, whose space-separated blocks have lengths
`[4, 4, 4, 3]`: the final block has three characters, not exactly four, so
the masked output is not always regrouped into blocks of exactly 4. -/
theorem c4_mask_counterexample :
    ccValidate ccDefaults ⟨2025, 9, 11, 0⟩
      (some { number := some "371449635398431", expiry := some "12/99", cvv := some "1234" }) =
      createSuccess
        { number := some "**** **** ***8 431"
          expiry := some "12/99"
          cvv := some "1234"
          cardType := .amex } ∧
    (splitOnChar ' ' (maskCardNumber "371449635398431").data).map List.length = [4, 4, 4, 3] :=
  ⟨rfl, rfl⟩

lemma chunk4_flatten : ∀ l : List Char, (chunk4 l).flatten = l
  | [] => rfl
  | [_] => rfl
  | [_, _] => rfl
  | [_, _, _] => rfl
  | a :: b :: c :: d :: rest => by
    simp [chunk4, chunk4_flatten rest]

lemma chunk4_ne_nil : ∀ l : List Char, l ≠ [] → chunk4 l ≠ []
  | [], h => absurd rfl h
  | [_], _ => by simp [chunk4]
  | [_, _], _ => by simp [chunk4]
  | [_, _, _], _ => by simp [chunk4]
  | _ :: _ :: _ :: _ :: _, _ => by simp [chunk4]

lemma chunk4_mem : ∀ (l : List Char) (b : List Char), b ∈ chunk4 l →
    b ≠ [] ∧ b.length ≤ 4
  | [], b, h => absurd h (by simp [chunk4])
  | [a], b, h => by
    simp [chunk4] at h
    simp [h]
  | [a, a'], b, h => by
    simp [chunk4] at h
    simp [h]
  | [a, a', a''], b, h => by
    simp [chunk4] at h
    simp [h]
  | a :: a' :: a'' :: a''' :: rest, b, h => by
    simp only [chunk4, List.mem_cons] at h
    rcases h with h | h
    · simp [h]
    · exact chunk4_mem rest b h

lemma chunk4_dropLast : ∀ (l : List Char) (b : List Char), b ∈ (chunk4 l).dropLast →
    b.length = 4
  | [], b, h => absurd h (by simp [chunk4])
  | [a], b, h => absurd h (by simp [chunk4])
  | [a, a'], b, h => absurd h (by simp [chunk4])
  | [a, a', a''], b, h => absurd h (by simp [chunk4])
  | a :: a' :: a'' :: a''' :: rest, b, h => by
    by_cases hr : rest = []
    · subst hr
      simp [chunk4] at h
    · rw [show chunk4 (a :: a' :: a'' :: a''' :: rest) =
          [a, a', a'', a'''] :: chunk4 rest from rfl,
        List.dropLast_cons_of_ne_nil (chunk4_ne_nil rest hr), List.mem_cons] at h
      rcases h with h | h
      · simp [h]
      · exact chunk4_dropLast rest b h

lemma flatten_map_space : ∀ bs : List (List Char), bs ≠ [] →
    (bs.map (fun b => b ++ [' '])).flatten = sepSpace bs ++ [' ']
  | [], h => absurd rfl h
  | [b], _ => by simp [sepSpace]
  | b :: b' :: bs, _ => by
    rw [show sepSpace (b :: b' :: bs) = b ++ [' '] ++ sepSpace (b' :: bs) from rfl]
    rw [List.map_cons, List.flatten_cons, flatten_map_space (b' :: bs) (by simp)]
    simp

lemma sepSpace_ne_nil : ∀ bs : List (List Char), bs ≠ [] → (∀ b ∈ bs, b ≠ []) →
    sepSpace bs ≠ []
  | [], h, _ => absurd rfl h
  | [b], _, hb => by simpa [sepSpace] using hb b (by simp)
  | b :: b' :: bs, _, hb => by
    rw [show sepSpace (b :: b' :: bs) = b ++ [' '] ++ sepSpace (b' :: bs) from rfl]
    simp [hb b (by simp)]

lemma sepSpace_head_ok : ∀ bs : List (List Char),
    (∀ b ∈ bs, b ≠ [] ∧ ∀ c ∈ b, isJsWhitespace c = false) →
    ∀ c ∈ (sepSpace bs).head?, isJsWhitespace c = false
  | [], _, c, h => by simp [sepSpace] at h
  | [b], hb, c, h => by
    rw [show sepSpace [b] = b from rfl] at h
    exact (hb b (by simp)).2 c (List.mem_of_mem_head? h)
  | b :: b' :: bs, hb, c, h => by
    rw [show sepSpace (b :: b' :: bs) = b ++ [' '] ++ sepSpace (b' :: bs) from rfl] at h
    rw [List.append_assoc, List.head?_append_of_ne_nil _ (hb b (by simp)).1] at h
    exact (hb b (by simp)).2 c (List.mem_of_mem_head? h)

lemma sepSpace_last_ok : ∀ bs : List (List Char),
    (∀ b ∈ bs, b ≠ [] ∧ ∀ c ∈ b, isJsWhitespace c = false) →
    ∀ c ∈ (sepSpace bs).getLast?, isJsWhitespace c = false
  | [], _, c, h => by simp [sepSpace] at h
  | [b], hb, c, h => by
    rw [show sepSpace [b] = b from rfl] at h
    exact (hb b (by simp)).2 c (List.mem_of_mem_getLast? h)
  | b :: b' :: bs, hb, c, h => by
    rw [show sepSpace (b :: b' :: bs) = b ++ [' '] ++ sepSpace (b' :: bs) from rfl] at h
    have hne : sepSpace (b' :: bs) ≠ [] :=
      sepSpace_ne_nil (b' :: bs) (by simp) (fun x hx => (hb x (by simp [hx])).1)
    rw [List.append_assoc, List.getLast?_append_of_ne_nil _ (by simp [hne])] at h
    rw [List.getLast?_append_of_ne_nil _ hne] at h
    exact sepSpace_last_ok (b' :: bs) (fun x hx => hb x (by simp [hx])) c h

lemma dropWhile_eq_self_of_head (m : List Char)
    (h : ∀ c ∈ m.head?, isJsWhitespace c = false) :
    m.dropWhile isJsWhitespace = m := by
  cases m with
  | nil => rfl
  | cons a t =>
    rw [List.dropWhile_cons_of_neg]
    simp [h a (by simp)]

lemma jsTrimList_append_space (x : List Char) (hx : x ≠ [])
    (hh : ∀ c ∈ x.head?, isJsWhitespace c = false)
    (hl : ∀ c ∈ x.getLast?, isJsWhitespace c = false) :
    jsTrimList (x ++ [' ']) = x := by
  unfold jsTrimList
  rw [dropWhile_eq_self_of_head (x ++ [' ']) (by rw [List.head?_append_of_ne_nil _ hx]; exact hh)]
  rw [List.reverse_append]
  rw [show ([' '] : List Char).reverse = [' '] from rfl]
  rw [show ([' '] : List Char) ++ x.reverse = ' ' :: x.reverse from rfl]
  rw [List.dropWhile_cons_of_pos (by simp [isJsWhitespace])]
  rw [dropWhile_eq_self_of_head x.reverse (by rw [List.head?_reverse]; exact hl)]
  exact List.reverse_reverse x

lemma digit_not_ws (c : Char) (h : c.isDigit = true) : isJsWhitespace c = false := by
  have h1 : ¬(c = ' ') := fun e => by subst e; exact absurd h (by decide)
  have h2 : ¬(c = '\t') := fun e => by subst e; exact absurd h (by decide)
  have h3 : ¬(c = '\n') := fun e => by subst e; exact absurd h (by decide)
  have h4 : ¬(c = Char.ofNat 11) := fun e => by subst e; exact absurd h (by decide)
  have h5 : ¬(c = Char.ofNat 12) := fun e => by subst e; exact absurd h (by decide)
  have h6 : ¬(c = '\r') := fun e => by subst e; exact absurd h (by decide)
  simp [isJsWhitespace, h1, h2, h3, h4, h5, h6]

lemma star_not_ws : isJsWhitespace '*' = false := by decide

/-- C4 amended.  For every card number of length ≥ 4 over digits, the
masked output is the space-separated grouping of a block list in which
every block has between 1 and 4 characters, every block except the last
has exactly 4 (so a length divisible by 4 gives blocks of exactly 4, and
otherwise the final block is shorter), and the concatenation of the blocks
(the visible characters) is the all-but-last-four starred string — in
particular its last 4 characters equal the input's last 4 digits. -/
theorem c4_mask_amended (s : String) (h4 : 4 ≤ s.data.length)
    (hdig : s.data.all Char.isDigit = true) :
    ∃ blocks : List (List Char),
      (maskCardNumber s).data = sepSpace blocks ∧
      blocks ≠ [] ∧
      (∀ b ∈ blocks, 1 ≤ b.length ∧ b.length ≤ 4) ∧
      (∀ b ∈ blocks.dropLast, b.length = 4) ∧
      blocks.flatten =
        List.replicate (s.data.length - 4) '*' ++ s.data.drop (s.data.length - 4) ∧
      blocks.flatten.length = s.data.length ∧
      blocks.flatten.drop (s.data.length - 4) = s.data.drop (s.data.length - 4) := by
  have hne : s.data ≠ [] := by
    intro he
    rw [he] at h4
    simp at h4
  have hcomb_flat : (chunk4 (maskCombined s.data)).flatten = maskCombined s.data :=
    chunk4_flatten _
  have hcomb_eq : maskCombined s.data =
      List.replicate (s.data.length - 4) '*' ++ s.data.drop (s.data.length - 4) := by
    unfold maskCombined
    congr 1
    rw [List.map_const']
    congr 1
    rw [List.length_take]
    omega
  have hcomb_len : (maskCombined s.data).length = s.data.length := by
    rw [hcomb_eq, List.length_append, List.length_replicate, List.length_drop]
    omega
  have hcomb_ne : maskCombined s.data ≠ [] := by
    apply List.ne_nil_of_length_pos
    rw [hcomb_len]
    omega
  have hcomb_chars : ∀ c ∈ maskCombined s.data, isJsWhitespace c = false := by
    intro c hc
    rw [hcomb_eq] at hc
    rcases List.mem_append.mp hc with hc | hc
    · rw [List.eq_of_mem_replicate hc]
      exact star_not_ws
    · exact digit_not_ws c (List.all_eq_true.mp hdig c (List.mem_of_mem_drop hc))
  have hblocks : ∀ b ∈ chunk4 (maskCombined s.data),
      b ≠ [] ∧ ∀ c ∈ b, isJsWhitespace c = false := by
    intro b hb
    refine ⟨(chunk4_mem _ b hb).1, fun c hc => hcomb_chars c ?_⟩
    rw [← hcomb_flat]
    exact List.mem_flatten.mpr ⟨b, hb, hc⟩
  refine ⟨chunk4 (maskCombined s.data), ?_, chunk4_ne_nil _ hcomb_ne, ?_, chunk4_dropLast _, ?_, ?_, ?_⟩
  · have hguard : ¬((s = "" || decide (s.data.length < 4)) = true) := by
      simp only [Bool.or_eq_true, decide_eq_true_eq]
      rintro (h | h)
      · exact hne (by rw [h])
      · omega
    unfold maskCardNumber
    rw [if_neg hguard]
    rw [flatten_map_space _ (chunk4_ne_nil _ hcomb_ne)]
    rw [jsTrimList_append_space _
      (sepSpace_ne_nil _ (chunk4_ne_nil _ hcomb_ne) (fun b hb => (hblocks b hb).1))
      (sepSpace_head_ok _ hblocks) (sepSpace_last_ok _ hblocks)]
  · intro b hb
    have := chunk4_mem _ b hb
    refine ⟨?_, this.2⟩
    rcases this with ⟨h1, _⟩
    cases b with
    | nil => exact absurd rfl h1
    | cons _ _ => simp
  · rw [hcomb_flat, hcomb_eq]
  · rw [hcomb_flat, hcomb_len]
  · rw [hcomb_flat, hcomb_eq]
    have hd := List.drop_left (List.replicate (s.data.length - 4) '*')
      (s.data.drop (s.data.length - 4))
    rw [List.length_replicate] at hd
    exact hd

/-- C4 witness: the amended statement applied at the 15-digit Amex number,
hypotheses discharged by evaluation. -/
theorem c4_mask_amended_witness :
    ∃ blocks : List (List Char),
      (maskCardNumber "371449635398431").data = sepSpace blocks ∧
      blocks ≠ [] ∧
      (∀ b ∈ blocks, 1 ≤ b.length ∧ b.length ≤ 4) ∧
      (∀ b ∈ blocks.dropLast, b.length = 4) ∧
      blocks.flatten =
        List.replicate ("371449635398431".data.length - 4) '*' ++
          "371449635398431".data.drop ("371449635398431".data.length - 4) ∧
      blocks.flatten.length = "371449635398431".data.length ∧
      blocks.flatten.drop ("371449635398431".data.length - 4) =
        "371449635398431".data.drop ("371449635398431".data.length - 4) :=
  c4_mask_amended "371449635398431" (by decide) (by decide)

/-- C6 counterexample.  `EmailValidatorOptions` has no subdomain-matching
option at all (its fields are exactly `allowedDomains`, `blockedDomains`,
`maxLength`, `strictMode`), so no configuration has "subdomain matching
enabled": under the claim's remaining configuration — the defaults with
`allowedDomains = ["example.com"]` — `user@sub.example.com` is accepted,
not rejected with `DOMAIN_NOT_ALLOWED`, because the domain allow-list check
is unconditionally suffix-aware. -/
theorem c6_email_counterexample :
    emailValidate
      { allowedDomains := ["example.com"], blockedDomains := [], maxLength := 254,
        strictMode := false } "user@sub.example.com" =
      createSuccess "user@sub.example.com" := rfl

/-- C6 amended.  With `allowedDomains = ["example.com"]`,
`user@sub.example.com` is accepted under every remaining configuration that
reaches the domain check (and never rejected with `DOMAIN_NOT_ALLOWED`
under any configuration): the email validator's subdomain matching is
unconditional, there being no option to disable it. -/
theorem c6_email_amended :
    (∀ opts : EmailValidatorOptions, opts.allowedDomains = ["example.com"] →
      getErrCode (emailValidate opts "user@sub.example.com") ≠ some "DOMAIN_NOT_ALLOWED") ∧
    (emailValidate
      { allowedDomains := ["example.com"], blockedDomains := [], maxLength := 254,
        strictMode := false } "user@sub.example.com").isValid = true ∧
    (emailValidate
      { allowedDomains := ["example.com"], blockedDomains := [], maxLength := 254,
        strictMode := true } "user@sub.example.com").isValid = true := by
  refine ⟨?_, rfl, rfl⟩
  intro opts had
  obtain ⟨ad, bd, ml, sm⟩ := opts
  simp only at had
  subst had
  unfold emailValidate
  dsimp only
  refine getErrCode_ite_ne _ _ _ _ (by simp [getErrCode, createError]) ?_
  refine getErrCode_ite_ne _ _ _ _ (by simp [getErrCode, createError]) ?_
  refine getErrCode_ite_ne _ _ _ _ (by simp [getErrCode, createError]) ?_
  rw [if_neg (by decide)]
  refine getErrCode_ite_ne _ _ _ _ (by simp [getErrCode, createError]) ?_
  simp [getErrCode, createSuccess]

/-- C6 witness: the never-`DOMAIN_NOT_ALLOWED` conjunct applied at the
default configuration extended with the allow-list. -/
theorem c6_email_amended_witness :
    getErrCode (emailValidate
      { allowedDomains := ["example.com"], blockedDomains := [], maxLength := 254,
        strictMode := false } "user@sub.example.com") ≠ some "DOMAIN_NOT_ALLOWED" :=
  c6_email_amended.1 _ rfl

lemma c5_reduction (opts : CreditCardValidatorOptions) (now : JSDate) (c : CreditCardData)
    (e : String) (hnum : opts.numberRequired = false) (hno : c.number = none)
    (hex : c.expiry = some e) (hene : e ≠ "") (code : String)
    (h1 : code ≠ "CVV_REQUIRED") (h2 : code ≠ "INVALID_CVV")
    (h3 : code ≠ "CARDHOLDER_NAME_REQUIRED") :
    getErrCode (ccValidate opts now (some c)) = some code ↔
      ((expiryTest e.data = false ∧ code = "INVALID_EXPIRY_FORMAT") ∨
       (expiryTest e.data = true ∧ validateExpiryDate now e = false ∧ code = "EXPIRED_CARD")) := by
  have hp : ccProcessedNumber c = none := by simp [ccProcessedNumber, hno]
  unfold ccValidate
  dsimp only
  rw [hnum, hex, hp]
  simp only [optTruthy, Bool.false_and, Bool.false_eq_true, if_false,
    decide_eq_false hene, Bool.not_false, Bool.not_true, Bool.and_false, Option.getD_some,
    Bool.true_and]
  by_cases hfmt : expiryTest e.data = true
  · simp only [hfmt, Bool.not_true, Bool.false_eq_true, if_false]
    by_cases hval : validateExpiryDate now e = true
    · simp only [hval, Bool.not_true, Bool.false_eq_true, if_false]
      simp only [hfmt, hval, Bool.true_eq_false, false_and, and_false, or_false, false_or,
        true_and, iff_false]
      repeat
        first
        | apply getErrCode_ite_ne
        | simp [getErrCode, createError, createSuccess, Ne.symm h1, Ne.symm h2, Ne.symm h3]
    · have hv' : validateExpiryDate now e = false := by
        revert hval
        cases validateExpiryDate now e <;> simp
      simp [hv', hfmt, getErrCode, createError]
      exact eq_comm
  · have hf' : expiryTest e.data = false := by
      revert hfmt
      cases expiryTest e.data <;> simp
    simp [hf', getErrCode, createError]
    exact eq_comm

/-- C5.  Under a configuration and input that reach the expiry stage
(`numberRequired = false`, no number, a truthy expiry string `e`), the
credit-card validator rejects `e` with `INVALID_EXPIRY_FORMAT` exactly when
`e` fails the `MM/YY` / `MM/YYYY` pattern, and reports `EXPIRED_CARD`
exactly when `e` matches the pattern but local midnight of the last day of
the expiry month is strictly before the current instant `now`; a two-digit
year is interpreted as `2000 + YY`. -/
theorem c5_expiry (opts : CreditCardValidatorOptions) (now : JSDate) (c : CreditCardData)
    (e : String) (hnum : opts.numberRequired = false) (hno : c.number = none)
    (hex : c.expiry = some e) (hene : e ≠ "") :
    ((getErrCode (ccValidate opts now (some c)) = some "INVALID_EXPIRY_FORMAT") ↔
      expiryTest e.data = false) ∧
    ((getErrCode (ccValidate opts now (some c)) = some "EXPIRED_CARD") ↔
      (expiryTest e.data = true ∧ validateExpiryDate now e = false)) ∧
    (∀ d : JSDate, expiryLastDay e = some d →
      (validateExpiryDate now e = false ↔ jsDateLtB d now = true)) ∧
    (∀ ys : String, ys.data.length = 2 → ys.data.all Char.isDigit = true →
      jsParseIntNat (expiryYearString ys) = some (2000 + digitsToNat ys.data)) := by
  refine ⟨?_, ?_, ?_, ?_⟩
  · rw [c5_reduction opts now c e hnum hno hex hene "INVALID_EXPIRY_FORMAT"
      (by decide) (by decide) (by decide)]
    simp
  · rw [c5_reduction opts now c e hnum hno hex hene "EXPIRED_CARD"
      (by decide) (by decide) (by decide)]
    simp
  · intro d hd
    unfold validateExpiryDate
    rw [hd]
    unfold jsDateLeB
    simp
  · intro ys hlen hdig
    obtain ⟨a, b, hab⟩ := List.length_eq_two.mp hlen
    have ha : a.isDigit = true := by
      have := List.all_eq_true.mp hdig a
      rw [hab] at this
      exact this (by simp)
    have hb : b.isDigit = true := by
      have := List.all_eq_true.mp hdig b
      rw [hab] at this
      exact this (by simp)
    have hys : (expiryYearString ys).data = '2' :: '0' :: [a, b] := by
      unfold expiryYearString
      rw [if_pos hlen, String.data_append, hab]
      rfl
    unfold jsParseIntNat
    rw [hys]
    rw [List.takeWhile_cons_of_pos (by decide), List.takeWhile_cons_of_pos (by decide),
      List.takeWhile_cons_of_pos ha, List.takeWhile_cons_of_pos hb, List.takeWhile_nil]
    rw [if_neg (by simp)]
    rw [hab]
    simp only [digitsToNat, List.foldl, Option.some.injEq]
    rw [show charDigitVal '2' = 2 from by decide, show charDigitVal '0' = 0 from by decide]
    omega

/-- C5 witness: the theorem applied at the default configuration without a
number, expiry `12/30`, evaluated at 11 October 2025. -/
theorem c5_expiry_witness :
    ((getErrCode (ccValidate { ccDefaults with numberRequired := false } ⟨2025, 9, 11, 0⟩
        (some { expiry := some "12/30" })) = some "INVALID_EXPIRY_FORMAT") ↔
      expiryTest "12/30".data = false) ∧
    ((getErrCode (ccValidate { ccDefaults with numberRequired := false } ⟨2025, 9, 11, 0⟩
        (some { expiry := some "12/30" })) = some "EXPIRED_CARD") ↔
      (expiryTest "12/30".data = true ∧ validateExpiryDate ⟨2025, 9, 11, 0⟩ "12/30" = false)) ∧
    (∀ d : JSDate, expiryLastDay "12/30" = some d →
      (validateExpiryDate ⟨2025, 9, 11, 0⟩ "12/30" = false ↔ jsDateLtB d ⟨2025, 9, 11, 0⟩ = true)) ∧
    (∀ ys : String, ys.data.length = 2 → ys.data.all Char.isDigit = true →
      jsParseIntNat (expiryYearString ys) = some (2000 + digitsToNat ys.data)) :=
  c5_expiry { ccDefaults with numberRequired := false } ⟨2025, 9, 11, 0⟩
    { expiry := some "12/30" } "12/30" rfl rfl rfl (by decide)

/-- C7 counterexample.  `URLValidator.validate` does mutate instance state:
on an instance whose `lastError` holds the default `"Invalid URL"`, one
call with a 2084-character input (over the 2083 default `maxLength`)
overwrites `lastError` with the max-length message — the call's poststate
differs from its prestate, for any parser. -/
theorem c7_counterexample :
    (urlValidateS (fun _ => none) urlDefaults "Invalid URL"
      (String.mk (List.replicate 2084 'a'))).2 =
      "URL exceeds maximum length of 2083 characters" ∧
    ¬((urlValidateS (fun _ => none) urlDefaults "Invalid URL"
      (String.mk (List.replicate 2084 'a'))).2 = "Invalid URL") := by
  have hlen : urlDefaults.maxLength < (String.mk (List.replicate 2084 'a')).data.length := by
    show 2083 < (List.replicate 2084 'a').length
    rw [List.length_replicate]
    omega
  have h : urlValidate (fun _ => none) urlDefaults (String.mk (List.replicate 2084 'a')) =
      (false, some "URL exceeds maximum length of 2083 characters") := by
    unfold urlValidate
    rw [if_pos hlen]
    decide
  have h2 : (urlValidateS (fun _ => none) urlDefaults "Invalid URL"
      (String.mk (List.replicate 2084 'a'))).2 =
      "URL exceeds maximum length of 2083 characters" := by
    unfold urlValidateS
    rw [h]
  refine ⟨h2, ?_⟩
  rw [h2]
  decide

lemma urlValidate_shape (parse : String → Option JSURL) (o : URLValidatorOptions) (v : String) :
    urlValidate parse o v = (true, none) ∨ ∃ msg, urlValidate parse o v = (false, some msg) := by
  unfold urlValidate
  repeat' split
  all_goals first | exact Or.inl rfl | exact Or.inr ⟨_, rfl⟩

/-- C7 amended.  No `validate` call performs I/O or mutates its input, and
in the embedding every Result-returning validator is a pure function of its
configuration, the current instant and the input; the URL validator is the
one exception to state-immutability: it overwrites its `lastError` field on
every failing call.  Still, its boolean outcome never depends on the stored
`lastError` (so repeated calls with the same input and parser yield
identical results), a successful call leaves the state unchanged, and the
poststate of a failing call is independent of the prestate. -/
theorem c7_amended :
    (∀ (parse : String → Option JSURL) (o : URLValidatorOptions) (st₁ st₂ v : String),
      (urlValidateS parse o st₁ v).1 = (urlValidateS parse o st₂ v).1) ∧
    (∀ (parse : String → Option JSURL) (o : URLValidatorOptions) (st v : String),
      (urlValidateS parse o st v).1 = true → (urlValidateS parse o st v).2 = st) ∧
    (∀ (parse : String → Option JSURL) (o : URLValidatorOptions) (st₁ st₂ v : String),
      (urlValidateS parse o st₁ v).1 = false →
      (urlValidateS parse o st₁ v).2 = (urlValidateS parse o st₂ v).2) := by
  refine ⟨?_, ?_, ?_⟩
  · intro parse o st₁ st₂ v
    rcases urlValidate_shape parse o v with h | ⟨msg, h⟩ <;> simp [urlValidateS, h]
  · intro parse o st v
    rcases urlValidate_shape parse o v with h | ⟨msg, h⟩ <;> simp [urlValidateS, h]
  · intro parse o st₁ st₂ v
    rcases urlValidate_shape parse o v with h | ⟨msg, h⟩ <;> simp [urlValidateS, h]

/-- C7 witness: the failing-call conjunct applied at two different
prestates with a parser that rejects `"x"`. -/
theorem c7_amended_witness :
    (urlValidateS (fun _ => none) urlDefaults "A" "x").2 =
      (urlValidateS (fun _ => none) urlDefaults "B" "x").2 :=
  c7_amended.2.2 (fun _ => none) urlDefaults "A" "B" "x" (by decide)

/-- C8.  A `validate` call of the age validator throws (the only `throw`
reachable from any embedded validator's `validate`) exactly when the
configuration enables `validateFromDate` and the input is a `Date` strictly
in the future of the current instant; every other input — including every
ordinary invalid input — produces a returned `Result`. -/
theorem c8_throw_characterization :
    ∀ (opts : AgeValidatorOptions) (now : JSDate) (v : Option AgeInput),
      (∃ msg, ageValidate opts now v = .error msg) ↔
      (opts.validateFromDate = true ∧ ∃ d : JSDate, v = some (.date d) ∧ jsDateLtB now d = true) := by
  intro opts now v
  constructor
  · rintro ⟨msg, hmsg⟩
    rcases v with _ | input
    · simp [ageValidate] at hmsg
    · rcases input with n | d
      · simp [ageValidate] at hmsg
      · unfold ageValidate at hmsg
        dsimp only at hmsg
        by_cases hvf : (!opts.validateFromDate) = true
        · rw [if_pos hvf] at hmsg
          exact absurd hmsg (by simp)
        · rw [if_neg hvf] at hmsg
          by_cases hlt : jsDateLtB now d = true
          · refine ⟨?_, d, rfl, hlt⟩
            revert hvf
            cases opts.validateFromDate <;> simp
          · rw [if_neg hlt] at hmsg
            exact absurd hmsg (by simp)
  · rintro ⟨hvf, d, rfl, hlt⟩
    refine ⟨"Birth date cannot be in the future", ?_⟩
    unfold ageValidate
    dsimp only
    rw [hvf]
    rw [if_neg (by simp)]
    rw [if_pos hlt]
